import Mathlib

/-
Verification of the voice-ad generator's AI request orchestration layer and
its AdGenerator frontend component, as a shallow embedding in Lean 4.
The frontend component definitions are translated from the AdGenerator
React component; the orchestration-layer definitions are modelled from the
design document, since the backend service sources are not part of this
snapshot.
-/

namespace VoiceAdGen

/- ------------------------------------------------------------------
   Frontend: AdGenerator component (src/unnamed/part_001)
   ------------------------------------------------------------------ -/

/-- Component state of the AdGenerator React component: `duration` is the
useState-backed slider value (initially 30); `variationSelection` models the
value shown by the uncontrolled Number-of-Variations select (defaultValue 3),
which has no onChange handler and is never read by the component logic. -/
structure AdGeneratorState where
  duration : Nat
  variationSelection : Nat
deriving DecidableEq

/-- Initial state of the AdGenerator component: useState(30) for the
duration, defaultValue 3 for the variations select. -/
def initialAdGeneratorState : AdGeneratorState := AdGeneratorState.mk 30 3

/-- The JSON body that handleGenerate POSTs to the generate endpoint:
always the object with keys product, duration, tone. -/
structure GenerateRequestBody where
  product : String
  duration : Nat
  tone : String
deriving DecidableEq

/-- The body built by handleGenerate: JSON.stringify of
product = productName prop, duration = duration state, tone = brandTone
prop.  No other state (in particular not the variations select) is read. -/
def handleGenerateBody (productName brandTone : String)
    (s : AdGeneratorState) : GenerateRequestBody :=
  GenerateRequestBody.mk productName s.duration brandTone

/-- The option values offered by the Number-of-Variations select. -/
def variationOptions : List Nat := [1, 2, 3, 5]

/-- The onChange handler of the duration range input: sets the duration
state to the slider value, leaving the rest of the state alone. -/
def setDuration (s : AdGeneratorState) (v : Nat) : AdGeneratorState :=
  AdGeneratorState.mk v s.variationSelection

/-- Range-input attribute min="15" of the duration slider. -/
def sliderMin : Nat := 15

/-- Range-input attribute max="60" of the duration slider. -/
def sliderMax : Nat := 60

/-- Range-input attribute step="5" of the duration slider. -/
def sliderStep : Nat := 5

/-- The values the duration slider can take: min plus a whole number of
steps, not exceeding max — the admissible values of an HTML range input
with min 15, max 60, step 5. -/
def sliderReachable (v : Nat) : Prop :=
  ∃ k, v = sliderMin + sliderStep * k ∧ v ≤ sliderMax

instance (v : Nat) : Decidable (sliderReachable v) := by
  unfold sliderReachable sliderMin sliderStep sliderMax
  by_cases h : 15 ≤ v ∧ v ≤ 60 ∧ (v - 15) % 5 = 0
  · exact Decidable.isTrue
      ⟨(v - 15) / 5, by omega, by omega⟩
  · exact Decidable.isFalse (by
      rintro ⟨k, rfl, hle⟩
      exact h ⟨by omega, hle, by omega⟩)

/- ------------------------------------------------------------------
   Orchestration layer (modelled from the design document: the backend
   service sources are not part of this snapshot).
   ------------------------------------------------------------------ -/

/-- Modelled from the spec: the target content type of a generation
request (the backend ad-generator service holding this enum is missing
from the snapshot).  The data model lists tagline, script and
multi-product; the model-selector rule table additionally names product
description and brand storytelling. -/
inductive ContentType where
  | tagline
  | productDescription
  | script
  | multiProduct
  | brandStorytelling
deriving DecidableEq

/-- Modelled from the spec: the immutable GenerationRequest value —
product name, brand tone, duration in seconds, desired variation count,
target content type, plus the variation-affecting flags the fingerprint
normalization sorts (the backend ad-generator service is missing from
the snapshot). -/
structure GenerationRequest where
  product : String
  tone : String
  duration : Nat
  variations : Nat
  contentType : ContentType
  flags : List String
deriving DecidableEq

/-- Lower-case a single ASCII character. -/
def lowerChar (c : Char) : Char :=
  if 'A' ≤ c ∧ c ≤ 'Z' then Char.ofNat (c.toNat + 32) else c

/-- Whitespace test used when trimming free-text fields. -/
def isSpaceChar (c : Char) : Bool := c = ' ' || c = '\t' || c = '\n' || c = '\r'

/-- Drop leading and trailing whitespace from a character list, then
lower-case every character. -/
def trimLowerChars (l : List Char) : List Char :=
  (((l.dropWhile isSpaceChar).reverse.dropWhile isSpaceChar).reverse).map lowerChar

/-- Modelled from the spec: normalization of a free-text field — trim
surrounding whitespace, then lower-case. -/
def trimLower (s : String) : String := String.mk (trimLowerChars s.data)

/-- Modelled from the spec: round a duration to the nearest supported
bucket among 15, 30, 45 and 60 seconds (midpoints fall at 22.5, 37.5 and
52.5, which integer durations never hit). -/
def roundBucket (d : Nat) : Nat :=
  if d ≤ 22 then 15
  else if d ≤ 37 then 30
  else if d ≤ 52 then 45
  else 60

/-- Insert a flag into an already sorted flag list, keeping it sorted. -/
def insertFlag (x : String) : List String → List String
  | [] => [x]
  | y :: ys => if x ≤ y then x :: y :: ys else y :: insertFlag x ys

/-- Modelled from the spec: sort the variation-affecting flags before
hashing (insertion sort in lexicographic string order). -/
def sortFlags : List String → List String
  | [] => []
  | x :: xs => insertFlag x (sortFlags xs)

/-- Modelled from the spec: the Fingerprint value.  The spec's fingerprint
is an opaque fixed-length token with cryptographically negligible
collisions over the normalized fields in canonical field order; the model
realises the ideal collision-free hash as the canonical normalized tuple
itself (the backend fingerprint builder is missing from the snapshot). -/
structure Fingerprint where
  product : String
  tone : String
  duration : Nat
  variations : Nat
  contentType : ContentType
  flags : List String
deriving DecidableEq

/-- Modelled from the spec: fingerprint(request) — pure and
deterministic; trims and lower-cases the free-text fields, rounds the
duration to the nearest supported bucket, sorts the variation-affecting
flags, and keys on the canonical field order (the backend fingerprint
builder is missing from the snapshot). -/
def fingerprint (r : GenerationRequest) : Fingerprint :=
  Fingerprint.mk (trimLower r.product) (trimLower r.tone)
    (roundBucket r.duration) r.variations r.contentType (sortFlags r.flags)

/-- Modelled from the spec: the model tier enum, Fast or Capable. -/
inductive ModelTier where
  | fast
  | capable
deriving DecidableEq

/-- Modelled from the spec: selectTier(request), the pure decision
function of the Model Selector, rules evaluated in order — rule 1 routes
simple short requests to Fast; rule 2 routes complex content, long
durations or large variation counts to Capable; the default is Capable
(the backend ad-generator service is missing from the snapshot). -/
def selectTier (r : GenerationRequest) : ModelTier :=
  if (r.contentType = ContentType.tagline
        ∨ r.contentType = ContentType.productDescription)
      ∧ r.duration ≤ 15 ∧ r.variations ≤ 3 then
    ModelTier.fast
  else if (r.contentType = ContentType.script
        ∨ r.contentType = ContentType.multiProduct
        ∨ r.contentType = ContentType.brandStorytelling)
      ∨ 30 < r.duration ∨ 3 < r.variations then
    ModelTier.capable
  else
    ModelTier.capable

/-- Modelled from the spec: the error taxonomy of the upstream providers
(the backend ad-generator service holding these classes is missing from
the snapshot) — network timeout, 5xx/server-busy and rate-limit are
transient; malformed-request (4xx validation) and authentication
failures are fatal. -/
inductive ErrClass where
  | timeout
  | serverBusy
  | rateLimited
  | invalidRequest
  | authError
deriving DecidableEq

/-- Modelled from the spec: which error classes the Retry Executor
retries — timeouts, 5xx/server-busy and rate limits are retryable;
4xx validation errors and authentication failures are not. -/
def retryable : ErrClass → Bool
  | ErrClass.timeout => true
  | ErrClass.serverBusy => true
  | ErrClass.rateLimited => true
  | ErrClass.invalidRequest => false
  | ErrClass.authError => false

/-- Modelled from the spec: the Retry Executor configuration — base
delay d0, exponential multiplier 2 capped at a maximum delay, and a
bounded maximum attempt count. -/
structure RetryConfig where
  baseDelay : Nat
  maxDelay : Nat
  maxAttempts : Nat
deriving DecidableEq

/-- Modelled from the spec: the n-th backoff delay of the schedule —
base delay times 2 to the n, capped at the maximum delay.  Jitter in
[0, delay) is drawn separately and added to the wait; the recorded
backoff delays are the schedule values. -/
def backoffDelay (cfg : RetryConfig) (n : Nat) : Nat :=
  min (cfg.baseDelay * 2 ^ n) cfg.maxDelay

/-- Outcome of one orchestrated retry loop: terminal result, number of
attempts made, and the backoff delays slept between attempts. -/
structure ExecOutcome (α : Type) where
  result : Except ErrClass α
  attempts : Nat
  delays : List Nat

/-- Modelled from the spec: the retry loop of the Retry Executor as an
explicit recursion — attempt the call; on success stop; on a
non-retryable error stop immediately; on a retryable error sleep the
scheduled backoff delay and retry while attempts remain. -/
def executeAux (cfg : RetryConfig) (call : Nat → Except ErrClass α) :
    Nat → Nat → ExecOutcome α
  | fuel, attempt =>
    match call attempt with
    | Except.ok v => ExecOutcome.mk (Except.ok v) attempt []
    | Except.error e =>
      if retryable e then
        match fuel with
        | 0 => ExecOutcome.mk (Except.error e) attempt []
        | Nat.succ fuel₁ =>
          let rest := executeAux cfg call fuel₁ (attempt + 1)
          ExecOutcome.mk rest.result rest.attempts
            (backoffDelay cfg (attempt - 1) :: rest.delays)
      else ExecOutcome.mk (Except.error e) attempt []

/-- Modelled from the spec: execute(upstreamCall) of the Retry Executor
(the backend ad-generator service is missing from the snapshot) —
attempts are numbered from 1 and bounded by maxAttempts. -/
def execute (cfg : RetryConfig) (call : Nat → Except ErrClass α) :
    ExecOutcome α :=
  executeAux cfg call (cfg.maxAttempts - 1) 1

/-- Modelled from the spec: a usage record of the Cost Ledger — input
and output token counts and the model tier used (the backend cost-ledger
service is missing from the snapshot). -/
structure UsageRecord where
  inputTokens : Nat
  outputTokens : Nat
  tier : ModelTier
deriving DecidableEq

/-- Modelled from the spec: the per-model-tier price table with distinct
input and output token rates per tier. -/
structure PriceTable where
  inputRate : ModelTier → Nat
  outputRate : ModelTier → Nat

/-- Modelled from the spec: the dollar cost of one usage record, derived
from its token counts via the tier-specific rates of the price table. -/
def recordCost (pt : PriceTable) (r : UsageRecord) : Nat :=
  r.inputTokens * pt.inputRate r.tier + r.outputTokens * pt.outputRate r.tier

/-- Aggregate view over a campaign's usage records: total tokens, total
cost and the record count backing the average cost per ad. -/
structure CostAggregate where
  totalTokens : Nat
  totalCost : Nat
  recordCount : Nat
deriving DecidableEq

/-- The aggregate of an empty record list. -/
def emptyAggregate : CostAggregate := CostAggregate.mk 0 0 0

/-- Modelled from the spec: incremental accumulation — extend a prior
aggregate with one newly appended usage record. -/
def addRecord (pt : PriceTable) (a : CostAggregate) (r : UsageRecord) :
    CostAggregate :=
  CostAggregate.mk (a.totalTokens + r.inputTokens + r.outputTokens)
    (a.totalCost + recordCost pt r) (a.recordCount + 1)

/-- Modelled from the spec: aggregate(campaignId) — a pure fold of the
incremental accumulator over the campaign's append-only record list
(the backend cost-ledger service is missing from the snapshot). -/
def aggregate (pt : PriceTable) (rs : List UsageRecord) : CostAggregate :=
  rs.foldl (addRecord pt) emptyAggregate

/-- Modelled from the spec: the Response Cache state for one fingerprint
(the backend cache service is missing from the snapshot) — the stored
CacheEntry as payload and expiry timestamp, the in-flight flag guarding
at most one concurrent computation, the waiters blocked behind it, the
number of upstream compute invocations so far, and the results delivered
to callers (payload on success, none on a failed compute). -/
structure CState where
  entry : Option (Nat × Nat)
  inFlight : Bool
  waiters : List Nat
  computeCalls : Nat
  delivered : List (Nat × Option Nat)
deriving DecidableEq

/-- The cold cache: no entry, nothing in flight, no compute invoked. -/
def initState : CState := CState.mk none false [] 0 []

/-- Modelled from the spec: the events of one fingerprint's cache
actor — a caller arriving at a given time, the in-flight computation
completing successfully at a given time with a TTL, or failing. -/
inductive CEvent where
  | arrive (caller now : Nat)
  | completeSuccess (v now ttl : Nat)
  | completeFailure
deriving DecidableEq

/-- Modelled from the spec: lazy expiry checked on access — the stored
payload is live only strictly before its expiry timestamp. -/
def entryLive : Option (Nat × Nat) → Nat → Option Nat
  | some pe, now => if now < pe.2 then some pe.1 else none
  | none, _ => none

/-- Modelled from the spec: one transition of the per-fingerprint cache
actor implementing getOrCompute — an arriving caller with a live entry
is answered immediately from the cache; on a miss it blocks behind an
in-flight computation or starts one; a successful completion populates
the entry and answers every waiter with the computed payload; a failed
completion caches nothing and answers every waiter with the failure, so
later callers recompute independently. -/
def step (s : CState) : CEvent → CState
  | CEvent.arrive c now =>
    match entryLive s.entry now with
    | some p =>
      CState.mk s.entry s.inFlight s.waiters s.computeCalls
        ((c, some p) :: s.delivered)
    | none =>
      if s.inFlight then
        CState.mk s.entry true (c :: s.waiters) s.computeCalls s.delivered
      else
        CState.mk s.entry true [c] (s.computeCalls + 1) s.delivered
  | CEvent.completeSuccess v now ttl =>
    if s.inFlight then
      CState.mk (some (v, now + ttl)) false [] s.computeCalls
        (s.waiters.map (fun c => (c, some v)) ++ s.delivered)
    else s
  | CEvent.completeFailure =>
    if s.inFlight then
      CState.mk s.entry false [] s.computeCalls
        (s.waiters.map (fun c => (c, none)) ++ s.delivered)
    else s

/-- Run the cache actor over a sequence of events. -/
def run (s : CState) (evs : List CEvent) : CState := evs.foldl step s

/-- The arrival events of a list of (caller, time) pairs. -/
def arrivals (cs : List (Nat × Nat)) : List CEvent :=
  cs.map (fun pr => CEvent.arrive pr.1 pr.2)

/-- Example upstream call: three transient timeouts, then success with
payload 7 on the fourth attempt. -/
def exCall : Nat → Except ErrClass Nat :=
  fun i => if i < 4 then Except.error ErrClass.timeout else Except.ok 7

/-- Example upstream call that always fails authentication. -/
def authCall : Nat → Except ErrClass Nat :=
  fun _ => Except.error ErrClass.authError

/- ------------------------------------------------------------------
   Claim theorems about the AdGenerator component.
   ------------------------------------------------------------------ -/

/-- C9: the value of the Number-of-Variations select is never read by
handleGenerate: two runs differing only in the selected variation count
produce the identical POST body, and that body is always
the object (product, duration, tone). -/
theorem adgen_variations_unused (productName brandTone : String)
    (s₁ s₂ : AdGeneratorState) (hdur : s₁.duration = s₂.duration) :
    handleGenerateBody productName brandTone s₁
      = handleGenerateBody productName brandTone s₂
    ∧ handleGenerateBody productName brandTone s₁
      = GenerateRequestBody.mk productName s₁.duration brandTone := by
  constructor
  · simp [handleGenerateBody, hdur]
  · rfl

/-- Witness for C9: selecting 1 variation versus 5 variations leaves the
generated request body unchanged. -/
theorem adgen_variations_unused_witness :
    handleGenerateBody "Premium Coffee" "luxury" (AdGeneratorState.mk 30 1)
      = handleGenerateBody "Premium Coffee" "luxury" (AdGeneratorState.mk 30 5) :=
  (adgen_variations_unused "Premium Coffee" "luxury"
    (AdGeneratorState.mk 30 1) (AdGeneratorState.mk 30 5) rfl).1

/-- C10: every duration the slider can produce is a multiple of 5 between
15 and 60; the initial duration is 30 and is reachable; durations outside
the four buckets 15/30/45/60 — 20, 25, 35, 40, 50 and 55 — are also
reachable at the public interface. -/
theorem adgen_slider_durations :
    (∀ v, sliderReachable v → 15 ≤ v ∧ v ≤ 60 ∧ v % 5 = 0)
    ∧ initialAdGeneratorState.duration = 30
    ∧ sliderReachable initialAdGeneratorState.duration
    ∧ sliderReachable 20 ∧ sliderReachable 25 ∧ sliderReachable 35
    ∧ sliderReachable 40 ∧ sliderReachable 50 ∧ sliderReachable 55
    ∧ (20 : Nat) ∉ ([15, 30, 45, 60] : List Nat) := by
  refine ⟨?_, rfl, ?_, ?_, ?_, ?_, ?_, ?_, ?_, by decide⟩
  · rintro v ⟨k, rfl, hle⟩
    unfold sliderMin sliderStep at *
    refine ⟨by omega, hle, by omega⟩
  · exact ⟨3, rfl, by decide⟩
  · exact ⟨1, rfl, by decide⟩
  · exact ⟨2, rfl, by decide⟩
  · exact ⟨4, rfl, by decide⟩
  · exact ⟨5, rfl, by decide⟩
  · exact ⟨7, rfl, by decide⟩
  · exact ⟨8, rfl, by decide⟩

/-- Witness for C10: the reachable slider value 20 is indeed a multiple of
5 within the 15–60 range. -/
theorem adgen_slider_durations_witness :
    15 ≤ 20 ∧ 20 ≤ 60 ∧ 20 % 5 = 0 :=
  adgen_slider_durations.1 20 ⟨1, rfl, by decide⟩

/- ------------------------------------------------------------------
   Claim theorems about the Fingerprint Builder.
   ------------------------------------------------------------------ -/

/-- C1 (amended): fingerprint is a pure function of the normalized
fields — two requests whose trimmed lower-cased free-text fields,
bucket-rounded durations, variation counts, content types and sorted
flag lists agree receive identical fingerprints; and any two requests
whose normalized product names differ receive different fingerprints. -/
theorem fingerprint_normalized (r₁ r₂ : GenerationRequest)
    (hp : trimLower r₁.product = trimLower r₂.product)
    (ht : trimLower r₁.tone = trimLower r₂.tone)
    (hd : roundBucket r₁.duration = roundBucket r₂.duration)
    (hv : r₁.variations = r₂.variations)
    (hc : r₁.contentType = r₂.contentType)
    (hf : sortFlags r₁.flags = sortFlags r₂.flags) :
    fingerprint r₁ = fingerprint r₂
    ∧ (∀ r₃ r₄ : GenerationRequest,
        trimLower r₃.product ≠ trimLower r₄.product →
        fingerprint r₃ ≠ fingerprint r₄) := by
  constructor
  · simp [fingerprint, hp, ht, hd, hv, hc, hf]
  · intro r₃ r₄ hne hfp
    simp only [fingerprint, Fingerprint.mk.injEq] at hfp
    exact hne hfp.1

/-- Counterexample for C1 as stated: the requests with product names
Coffee and coffee differ in product name, yet their fingerprints are
identical, because normalization lower-cases the product before
hashing. -/
theorem fingerprint_case_collision :
    (GenerationRequest.mk "Coffee" "luxury" 15 2 ContentType.tagline []).product
      ≠ (GenerationRequest.mk "coffee" "luxury" 15 2 ContentType.tagline []).product
    ∧ fingerprint (GenerationRequest.mk "Coffee" "luxury" 15 2 ContentType.tagline [])
      = fingerprint (GenerationRequest.mk "coffee" "luxury" 15 2 ContentType.tagline []) := by
  exact ⟨by decide, by decide⟩

/-- Witness for C1: two concrete requests that agree after normalization
(differing only in letter case and surrounding whitespace) receive the
same fingerprint. -/
theorem fingerprint_normalized_witness :
    fingerprint (GenerationRequest.mk " Premium Coffee " "Luxury" 30 2 ContentType.tagline [])
      = fingerprint (GenerationRequest.mk "premium coffee" "luxury" 30 2 ContentType.tagline []) :=
  (fingerprint_normalized
    (GenerationRequest.mk " Premium Coffee " "Luxury" 30 2 ContentType.tagline [])
    (GenerationRequest.mk "premium coffee" "luxury" 30 2 ContentType.tagline [])
    (by decide) (by decide) rfl rfl rfl rfl).1

/- ------------------------------------------------------------------
   Claim theorems about the Model Selector.
   ------------------------------------------------------------------ -/

/-- C3: selectTier satisfies the ordered rule table — rule 1 (tagline or
product description, duration at most 15 and at most 3 variations) gives
Fast; rule 2 (script, multi-product or brand storytelling content, or
duration over 30, or more than 3 variations) gives Capable; every
remaining combination defaults to Capable; and in particular a
15-second two-variation tagline maps to Fast while a 45-second
one-variation script maps to Capable. -/
theorem selectTier_rule_table (r : GenerationRequest) :
    (((r.contentType = ContentType.tagline
        ∨ r.contentType = ContentType.productDescription)
      ∧ r.duration ≤ 15 ∧ r.variations ≤ 3) → selectTier r = ModelTier.fast)
    ∧ (((r.contentType = ContentType.script
        ∨ r.contentType = ContentType.multiProduct
        ∨ r.contentType = ContentType.brandStorytelling)
        ∨ 30 < r.duration ∨ 3 < r.variations) → selectTier r = ModelTier.capable)
    ∧ ((¬((r.contentType = ContentType.tagline
        ∨ r.contentType = ContentType.productDescription)
      ∧ r.duration ≤ 15 ∧ r.variations ≤ 3))
      → (¬((r.contentType = ContentType.script
        ∨ r.contentType = ContentType.multiProduct
        ∨ r.contentType = ContentType.brandStorytelling)
        ∨ 30 < r.duration ∨ 3 < r.variations))
      → selectTier r = ModelTier.capable)
    ∧ selectTier (GenerationRequest.mk "p" "t" 15 2 ContentType.tagline [])
        = ModelTier.fast
    ∧ selectTier (GenerationRequest.mk "p" "t" 45 1 ContentType.script [])
        = ModelTier.capable := by
  refine ⟨?_, ?_, ?_, by decide, by decide⟩
  · intro h1
    simp only [selectTier, if_pos h1]
  · intro h2
    have h1 : ¬((r.contentType = ContentType.tagline
        ∨ r.contentType = ContentType.productDescription)
      ∧ r.duration ≤ 15 ∧ r.variations ≤ 3) := by
      rintro ⟨hct, hdur, hvar⟩
      rcases h2 with hs | hlong | hmany
      · rcases hct with h | h <;> rcases hs with hx | hx | hx <;>
          rw [h] at hx <;> exact absurd hx (by decide)
      · omega
      · omega
    simp only [selectTier, if_neg h1, if_pos h2]
  · intro hn1 hn2
    simp only [selectTier, if_neg hn1, if_neg hn2]

/- ------------------------------------------------------------------
   Claim theorems about the Retry Executor and the Cost Ledger.
   ------------------------------------------------------------------ -/

/-- Monotonicity of the backoff schedule: the capped exponential delay
is non-decreasing in the retry index. -/
theorem backoffDelay_mono (cfg : RetryConfig) {m n : Nat} (h : m ≤ n) :
    backoffDelay cfg m ≤ backoffDelay cfg n :=
  min_le_min
    (Nat.mul_le_mul_left _ (Nat.pow_le_pow_right (by norm_num) h))
    (Nat.le_refl _)

/-- Unfolding lemma: a successful attempt stops the retry loop at once
with an empty remaining delay list. -/
theorem executeAux_ok {α : Type} (cfg : RetryConfig)
    (call : Nat → Except ErrClass α) (f a : Nat) (v : α)
    (h : call a = Except.ok v) :
    executeAux cfg call f a = ExecOutcome.mk (Except.ok v) a [] := by
  unfold executeAux
  rw [h]

/-- Unfolding lemma: a non-retryable error stops the retry loop at once
with an empty remaining delay list. -/
theorem executeAux_fatal {α : Type} (cfg : RetryConfig)
    (call : Nat → Except ErrClass α) (f a : Nat) (e : ErrClass)
    (h : call a = Except.error e) (hr : retryable e = false) :
    executeAux cfg call f a = ExecOutcome.mk (Except.error e) a [] := by
  unfold executeAux
  rw [h]
  simp [hr]

/-- Unfolding lemma: a retryable error with no fuel left surfaces the
last observed error class. -/
theorem executeAux_fuelZero {α : Type} (cfg : RetryConfig)
    (call : Nat → Except ErrClass α) (a : Nat) (e : ErrClass)
    (h : call a = Except.error e) (hr : retryable e = true) :
    executeAux cfg call 0 a = ExecOutcome.mk (Except.error e) a [] := by
  unfold executeAux
  rw [h]
  simp [hr]

/-- Unfolding lemma: a retryable error with fuel left sleeps the
scheduled backoff delay and recurses on the next attempt. -/
theorem executeAux_retry {α : Type} (cfg : RetryConfig)
    (call : Nat → Except ErrClass α) (f a : Nat) (e : ErrClass)
    (h : call a = Except.error e) (hr : retryable e = true) :
    executeAux cfg call (f + 1) a =
      ExecOutcome.mk (executeAux cfg call f (a + 1)).result
        (executeAux cfg call f (a + 1)).attempts
        (backoffDelay cfg (a - 1) :: (executeAux cfg call f (a + 1)).delays) := by
  conv_lhs => unfold executeAux
  rw [h]
  simp [hr]

/-- C4: under the 4-attempt bound, a call failing with retryable errors
on attempts 1–3 and succeeding on attempt 4 returns the success result
after exactly 4 attempts with the monotonically non-decreasing backoff
delays d0, 2·d0 and 4·d0 (each capped); and a call failing retryably on
all 4 attempts surfaces a terminal failure carrying the last observed
error class after exactly 4 attempts. -/
theorem retry_schedule (cfg : RetryConfig) (call : Nat → Except ErrClass Nat)
    (hM : cfg.maxAttempts = 4) :
    (∀ v e₁ e₂ e₃,
      call 1 = Except.error e₁ → call 2 = Except.error e₂ →
      call 3 = Except.error e₃ →
      retryable e₁ = true → retryable e₂ = true → retryable e₃ = true →
      call 4 = Except.ok v →
      execute cfg call = ExecOutcome.mk (Except.ok v) 4
          [backoffDelay cfg 0, backoffDelay cfg 1, backoffDelay cfg 2]
        ∧ List.Chain' (fun a b => a ≤ b) (execute cfg call).delays)
    ∧ (∀ e₁ e₂ e₃ e₄,
      call 1 = Except.error e₁ → call 2 = Except.error e₂ →
      call 3 = Except.error e₃ → call 4 = Except.error e₄ →
      retryable e₁ = true → retryable e₂ = true → retryable e₃ = true →
      retryable e₄ = true →
      (execute cfg call).result = Except.error e₄
        ∧ (execute cfg call).attempts = 4) := by
  have hfuel : cfg.maxAttempts - 1 = 3 := by omega
  constructor
  · intro v e₁ e₂ e₃ h1 h2 h3 hr1 hr2 hr3 h4
    have t4 : executeAux cfg call 0 4 = ExecOutcome.mk (Except.ok v) 4 [] :=
      executeAux_ok cfg call 0 4 v h4
    have t3 := executeAux_retry cfg call 0 3 e₃ h3 hr3
    norm_num [t4] at t3
    have t2 := executeAux_retry cfg call 1 2 e₂ h2 hr2
    norm_num [t3] at t2
    have t1 := executeAux_retry cfg call 2 1 e₁ h1 hr1
    norm_num [t2] at t1
    have key : execute cfg call = ExecOutcome.mk (Except.ok v) 4
        [backoffDelay cfg 0, backoffDelay cfg 1, backoffDelay cfg 2] := by
      unfold execute
      rw [hfuel]
      exact t1
    refine ⟨key, ?_⟩
    rw [key]
    simp only [List.chain'_cons, List.chain'_singleton, and_true]
    exact ⟨backoffDelay_mono cfg (by omega), backoffDelay_mono cfg (by omega)⟩
  · intro e₁ e₂ e₃ e₄ h1 h2 h3 h4 hr1 hr2 hr3 hr4
    have t4 : executeAux cfg call 0 4 = ExecOutcome.mk (Except.error e₄) 4 [] :=
      executeAux_fuelZero cfg call 4 e₄ h4 hr4
    have t3 := executeAux_retry cfg call 0 3 e₃ h3 hr3
    norm_num [t4] at t3
    have t2 := executeAux_retry cfg call 1 2 e₂ h2 hr2
    norm_num [t3] at t2
    have t1 := executeAux_retry cfg call 2 1 e₁ h1 hr1
    norm_num [t2] at t1
    have key : execute cfg call = ExecOutcome.mk (Except.error e₄) 4
        [backoffDelay cfg 0, backoffDelay cfg 1, backoffDelay cfg 2] := by
      unfold execute
      rw [hfuel]
      exact t1
    rw [key]
    exact ⟨rfl, rfl⟩

/-- Witness for C4: with base delay 500, cap 8000 and 4 attempts, the
three-timeouts-then-success call returns 7 after 4 attempts, with
backoff delays 500, 1000, 2000, which are non-decreasing. -/
theorem retry_schedule_witness :
    execute (RetryConfig.mk 500 8000 4) exCall
      = ExecOutcome.mk (Except.ok 7) 4 [500, 1000, 2000]
    ∧ List.Chain' (fun a b => a ≤ b)
        (execute (RetryConfig.mk 500 8000 4) exCall).delays := by
  have h := (retry_schedule (RetryConfig.mk 500 8000 4) exCall rfl).1 7
    ErrClass.timeout ErrClass.timeout ErrClass.timeout rfl rfl rfl rfl rfl rfl rfl
  exact ⟨h.1, h.2⟩

/-- C5: a call whose first attempt fails with a non-retryable error —
in particular AuthError or a 4xx validation error — is never retried:
execute makes exactly one attempt, sleeps no backoff delay, and
surfaces the error immediately. -/
theorem retry_nonretryable (cfg : RetryConfig)
    (call : Nat → Except ErrClass Nat) (e : ErrClass)
    (h1 : call 1 = Except.error e) (hr : retryable e = false) :
    execute cfg call = ExecOutcome.mk (Except.error e) 1 []
    ∧ retryable ErrClass.authError = false
    ∧ retryable ErrClass.invalidRequest = false := by
  refine ⟨?_, rfl, rfl⟩
  unfold execute
  exact executeAux_fatal cfg call (cfg.maxAttempts - 1) 1 e h1 hr

/-- Witness for C5: the always-AuthError call makes exactly one attempt
and surfaces the auth failure with no backoff delays. -/
theorem retry_nonretryable_witness :
    execute (RetryConfig.mk 500 8000 4) authCall
      = ExecOutcome.mk (Except.error ErrClass.authError) 1 [] :=
  (retry_nonretryable (RetryConfig.mk 500 8000 4) authCall
    ErrClass.authError rfl rfl).1

/-- C6: aggregation is a pure fold — the aggregate of the two example
records equals the sum of the tier-specific price-table lookups (and
totals 430 tokens over 2 records), and extending any record list by one
record accumulates incrementally exactly as recomputing the fold from
scratch. -/
theorem costLedger_fold (pt : PriceTable) :
    (aggregate pt [UsageRecord.mk 100 50 ModelTier.fast,
                   UsageRecord.mk 200 80 ModelTier.capable]).totalCost
      = (100 * pt.inputRate ModelTier.fast + 50 * pt.outputRate ModelTier.fast)
        + (200 * pt.inputRate ModelTier.capable
            + 80 * pt.outputRate ModelTier.capable)
    ∧ (aggregate pt [UsageRecord.mk 100 50 ModelTier.fast,
                     UsageRecord.mk 200 80 ModelTier.capable]).totalTokens = 430
    ∧ ∀ (rs : List UsageRecord) (r : UsageRecord),
        aggregate pt (rs ++ [r]) = addRecord pt (aggregate pt rs) r := by
  refine ⟨?_, ?_, ?_⟩
  · simp [aggregate, addRecord, recordCost, emptyAggregate]
  · simp [aggregate, addRecord, recordCost, emptyAggregate]
  · intro rs r
    simp [aggregate, List.foldl_append]

/-- Witness for C3: a 10-second two-variation tagline is routed to the
Fast tier and a 45-second single-variation script to the Capable tier. -/
theorem selectTier_rule_table_witness :
    selectTier (GenerationRequest.mk "p" "t" 10 2 ContentType.tagline [])
      = ModelTier.fast
    ∧ selectTier (GenerationRequest.mk "p" "t" 45 1 ContentType.script [])
      = ModelTier.capable :=
  ⟨(selectTier_rule_table (GenerationRequest.mk "p" "t" 10 2 ContentType.tagline [])).1
      ⟨Or.inl rfl, by decide, by decide⟩,
   (selectTier_rule_table (GenerationRequest.mk "p" "t" 45 1 ContentType.script [])).2.1
      (Or.inl (Or.inl rfl))⟩

/- ------------------------------------------------------------------
   Claim theorems about the Response Cache.
   ------------------------------------------------------------------ -/

/-- Running the cache actor over concatenated event lists composes. -/
theorem run_append (s : CState) (l₁ l₂ : List CEvent) :
    run s (l₁ ++ l₂) = run (run s l₁) l₂ := by
  simp [run, List.foldl_append]

/-- With no entry and a computation in flight, a burst of arrivals only
queues the callers as waiters. -/
theorem run_arrivals_inflight (cs : List (Nat × Nat)) (w : List Nat)
    (cc : Nat) (dv : List (Nat × Option Nat)) :
    run (CState.mk none true w cc dv) (arrivals cs)
      = CState.mk none true ((cs.map Prod.fst).reverse ++ w) cc dv := by
  induction cs generalizing w with
  | nil => simp [arrivals, run]
  | cons hd tl ih =>
    have h0 : arrivals (hd :: tl) = CEvent.arrive hd.1 hd.2 :: arrivals tl := rfl
    have h1 : step (CState.mk none true w cc dv) (CEvent.arrive hd.1 hd.2)
        = CState.mk none true (hd.1 :: w) cc dv := by
      simp [step, entryLive]
    rw [h0]
    show run (step (CState.mk none true w cc dv) (CEvent.arrive hd.1 hd.2))
        (arrivals tl) = _
    rw [h1, ih]
    simp

/-- On a cold cache, a non-empty burst of arrivals starts exactly one
computation, with every caller queued as a waiter. -/
theorem run_arrivals_cold (c0 : Nat × Nat) (cs : List (Nat × Nat)) :
    run initState (arrivals (c0 :: cs))
      = CState.mk none true ((cs.map Prod.fst).reverse ++ [c0.1]) 1 [] := by
  have h0 : arrivals (c0 :: cs) = CEvent.arrive c0.1 c0.2 :: arrivals cs := rfl
  have h1 : step initState (CEvent.arrive c0.1 c0.2)
      = CState.mk none true [c0.1] 1 [] := by
    simp [initState, step, entryLive]
  rw [h0]
  show run (step initState (CEvent.arrive c0.1 c0.2)) (arrivals cs) = _
  rw [h1, run_arrivals_inflight]

/-- C2: on a cold cache, any number of concurrent callers with the same
fingerprint trigger exactly one upstream compute invocation; when it
completes successfully every caller receives that same payload and
nothing else is delivered; when it fails nothing is cached, the single
invocation stands, and a subsequent caller independently triggers a
fresh computation. -/
theorem cache_single_flight (c0 : Nat × Nat) (cs : List (Nat × Nat))
    (v now ttl cr tr : Nat) :
    ((run initState (arrivals (c0 :: cs)
        ++ [CEvent.completeSuccess v now ttl])).computeCalls = 1
      ∧ (∀ c, c ∈ (c0 :: cs).map Prod.fst →
          (c, some v) ∈ (run initState (arrivals (c0 :: cs)
            ++ [CEvent.completeSuccess v now ttl])).delivered)
      ∧ (∀ d, d ∈ (run initState (arrivals (c0 :: cs)
            ++ [CEvent.completeSuccess v now ttl])).delivered →
          d.2 = some v))
    ∧ ((run initState (arrivals (c0 :: cs)
          ++ [CEvent.completeFailure])).entry = none
      ∧ (run initState (arrivals (c0 :: cs)
          ++ [CEvent.completeFailure])).computeCalls = 1
      ∧ (run initState (arrivals (c0 :: cs)
          ++ [CEvent.completeFailure, CEvent.arrive cr tr])).computeCalls = 2) := by
  have hA := run_arrivals_cold c0 cs
  have hsucc : run initState (arrivals (c0 :: cs)
      ++ [CEvent.completeSuccess v now ttl])
      = CState.mk (some (v, now + ttl)) false [] 1
          ((((cs.map Prod.fst).reverse ++ [c0.1]).map (fun c => (c, some v)))
            ++ []) := by
    rw [run_append, hA]
    simp [run, step]
  have hfail : run initState (arrivals (c0 :: cs) ++ [CEvent.completeFailure])
      = CState.mk none false [] 1
          ((((cs.map Prod.fst).reverse ++ [c0.1]).map (fun c => (c, none)))
            ++ []) := by
    rw [run_append, hA]
    simp [run, step]
  refine ⟨⟨?_, ?_, ?_⟩, ?_, ?_, ?_⟩
  · rw [hsucc]
  · intro c hc
    rw [hsucc]
    simp only [List.map_cons, List.mem_cons, List.mem_map] at hc
    simp only [List.append_nil, List.mem_map, List.mem_append, List.mem_reverse,
      List.mem_singleton]
    rcases hc with h | ⟨a, ha, h⟩
    · exact ⟨c, Or.inr h, rfl⟩
    · exact ⟨c, Or.inl ⟨a, ha, h⟩, rfl⟩
  · intro d hd
    rw [hsucc] at hd
    simp only [List.append_nil, List.mem_map] at hd
    obtain ⟨a, _, h⟩ := hd
    rw [← h]
  · rw [hfail]
  · rw [hfail]
  · have h2 : run initState (arrivals (c0 :: cs)
        ++ [CEvent.completeFailure, CEvent.arrive cr tr])
        = step (run initState (arrivals (c0 :: cs)
            ++ [CEvent.completeFailure])) (CEvent.arrive cr tr) := by
      rw [show arrivals (c0 :: cs) ++ [CEvent.completeFailure, CEvent.arrive cr tr]
            = (arrivals (c0 :: cs) ++ [CEvent.completeFailure])
              ++ [CEvent.arrive cr tr] by simp,
          run_append]
      rfl
    rw [h2, hfail]
    simp [step, entryLive]

/-- Witness for C2: callers 1 and 2 arrive on a cold cache; one compute
runs, both receive the payload 42; after a failed compute instead, a
third caller triggers a second computation. -/
theorem cache_single_flight_witness :
    (run initState (arrivals [(1, 0), (2, 0)]
        ++ [CEvent.completeSuccess 42 0 100])).computeCalls = 1
    ∧ (1, some 42) ∈ (run initState (arrivals [(1, 0), (2, 0)]
        ++ [CEvent.completeSuccess 42 0 100])).delivered
    ∧ (run initState (arrivals [(1, 0), (2, 0)]
        ++ [CEvent.completeFailure, CEvent.arrive 3 0])).computeCalls = 2 := by
  have h := cache_single_flight (1, 0) [(2, 0)] 42 0 100 3 0
  exact ⟨h.1.1, h.1.2.1 1 (by simp), h.2.2.2⟩

/-- C7: with a stored entry, an access strictly before the expiry
timestamp is a hit returning the stored payload and touching nothing
else (in particular no upstream compute), an access at or after the
expiry delivers nothing, and the boundary accesses at expiry − 1 and
expiry + 1 hit and miss respectively. -/
theorem cache_ttl (s : CState) (p exp c now : Nat)
    (hE : s.entry = some (p, exp)) :
    (now < exp →
      step s (CEvent.arrive c now)
        = CState.mk s.entry s.inFlight s.waiters s.computeCalls
            ((c, some p) :: s.delivered))
    ∧ (exp ≤ now →
        (step s (CEvent.arrive c now)).delivered = s.delivered
        ∧ entryLive s.entry now = none)
    ∧ (1 ≤ exp →
      step s (CEvent.arrive c (exp - 1))
        = CState.mk s.entry s.inFlight s.waiters s.computeCalls
            ((c, some p) :: s.delivered))
    ∧ (step s (CEvent.arrive c (exp + 1))).delivered = s.delivered := by
  have hhit : ∀ n, n < exp →
      step s (CEvent.arrive c n)
        = CState.mk s.entry s.inFlight s.waiters s.computeCalls
            ((c, some p) :: s.delivered) := by
    intro n hn
    simp [step, entryLive, hE, hn]
  have hlive : ∀ n, exp ≤ n → entryLive s.entry n = none := by
    intro n hn
    simp [entryLive, hE]
    omega
  have hmiss : ∀ n, exp ≤ n →
      (step s (CEvent.arrive c n)).delivered = s.delivered := by
    intro n hn
    simp only [step, hlive n hn]
    cases hI : s.inFlight <;> simp
  exact ⟨hhit now, fun hn => ⟨hmiss now hn, hlive now hn⟩,
    fun h1 => hhit (exp - 1) (by omega),
    hmiss (exp + 1) (by omega)⟩

/-- Witness for C7: for an entry with payload 7 expiring at time 1000,
the access at 999 hits and returns the stored payload, and the access
at 1001 delivers nothing. -/
theorem cache_ttl_witness :
    step (CState.mk (some (7, 1000)) false [] 0 []) (CEvent.arrive 9 999)
      = CState.mk (some (7, 1000)) false [] 0 [(9, some 7)]
    ∧ (step (CState.mk (some (7, 1000)) false [] 0 [])
        (CEvent.arrive 9 1001)).delivered = [] := by
  have h := cache_ttl (CState.mk (some (7, 1000)) false [] 0 []) 7 1000 9 999 rfl
  exact ⟨h.2.2.1 (by omega), h.2.2.2⟩

/-- C8: a failed computation leaves the cache entry untouched, and the
entry can change only through a successful completion of an in-flight
generation — so an entry is visible to callers only after its
originating generation completed successfully. -/
theorem cache_failure_invisible (s : CState) (ev : CEvent) :
    (step s CEvent.completeFailure).entry = s.entry
    ∧ ((step s ev).entry ≠ s.entry →
        (∃ v now ttl, ev = CEvent.completeSuccess v now ttl)
          ∧ s.inFlight = true) := by
  have hfail : (step s CEvent.completeFailure).entry = s.entry := by
    simp only [step]
    cases hI : s.inFlight <;> simp
  refine ⟨hfail, ?_⟩
  intro hne
  cases ev with
  | arrive c n =>
    exfalso
    apply hne
    simp only [step]
    cases h : entryLive s.entry n
    · simp only []
      cases hI : s.inFlight <;> simp
    · simp only []
  | completeSuccess v n t =>
    cases hI : s.inFlight
    · exfalso
      apply hne
      simp [step, hI]
    · exact ⟨⟨v, n, t, rfl⟩, rfl⟩
  | completeFailure =>
    exact absurd hfail hne

/-- Witness for C8: the transition that installs the entry from a state
with a computation in flight is a successful completion. -/
theorem cache_failure_invisible_witness :
    (∃ v now ttl, CEvent.completeSuccess 5 0 10
        = CEvent.completeSuccess v now ttl)
    ∧ (CState.mk none true [0] 1 []).inFlight = true :=
  (cache_failure_invisible (CState.mk none true [0] 1 [])
    (CEvent.completeSuccess 5 0 10)).2 (by decide)

end VoiceAdGen
